import Mathlib

/-!
Verification development for the tauri wry runtime dispatcher
(src/core/tauri-runtime-wry/src/lib.rs) and the updater flow
(src/core/tauri/src/updater/core.rs).

The Rust code is shallowly embedded: native toolkit objects (windows,
webviews, monitors) become Lean structures whose fields are exactly the
values the code queries or mutates; cross-thread channels become explicit
data (a reply channel is its numeric id, a send on it is a recorded pair);
closures handed across the thread boundary are represented by the values
they would return; a Rust panic is an `Except.error` carrying the panic
message.  `f64` values that the code only passes through untouched
(scale factors, logical sizes/positions) are modelled as `Nat`/`Int`
tokens.
-/

namespace TauriWry

/-- tauri_runtime::Error (the variants exercised by this crate). -/
inductive Error
  | FailedToSendMessage
  | InvalidIcon (cause : String)
  | CreateWebview (cause : String)
  deriving DecidableEq, Repr

/-- Public Size value (tauri_runtime dpi::Size): Logical carries f64 values,
modelled as Nat tokens since the runtime only forwards them. -/
inductive Size
  | Logical (w h : Nat)
  | Physical (w h : Nat)
  deriving DecidableEq, Repr

/-- Public Position value (tauri_runtime dpi::Position). -/
inductive Position
  | Logical (x y : Int)
  | Physical (x y : Int)
  deriving DecidableEq, Repr

/-- Monitor data surfaced by the monitor getters. -/
structure NativeMonitor where
  name : Option String
  posX : Int
  posY : Int
  width : Nat
  height : Nat
  scaleFactor : Nat
  deriving DecidableEq, Repr

/-- The native window owned by the event-loop thread.  Fields are exactly
the values the runtime queries (getters) or the requests it forwards
(setters); `innerPosition`/`outerPosition` are `Option` because the native
queries return a `Result` (they can fail on some platforms). -/
structure NativeWindow where
  id : Nat
  scaleFactor : Nat
  innerPosition : Option (Int × Int)
  outerPosition : Option (Int × Int)
  innerSize : Nat × Nat
  outerSize : Nat × Nat
  fullscreen : Bool
  maximized : Bool
  minimized : Bool
  decorated : Bool
  resizable : Bool
  visible : Bool
  alwaysOnTop : Bool
  skipTaskbar : Bool
  focused : Bool
  dragging : Bool
  title : String
  icon : Option Nat
  minSize : Option Size
  maxSize : Option Size
  sizeRequest : Option Size
  positionRequest : Option Position
  currentMonitor : Option NativeMonitor
  primaryMonitor : Option NativeMonitor
  availableMonitors : List NativeMonitor
  deriving DecidableEq, Repr

/-- The native webview attached to one window.  The `...Ok` flags model
whether the corresponding fallible native call would succeed on this
object; `dispatchedScripts`/`printCount` record the effects of successful
calls. -/
structure WebView where
  window : NativeWindow
  dispatchedScripts : List String
  printCount : Nat
  evalScriptOk : Bool
  dispatchScriptOk : Bool
  printOk : Bool
  resizeOk : Bool
  deriving DecidableEq, Repr

/-- WindowMessage: getters carry the one-shot reply channel (modelled by
its numeric id), setters carry their payload.  Mirrors the Rust enum
variant for variant (the cfg(windows) Hwnd variant is omitted together
with every other cfg-gated item). -/
inductive WindowMessage
  | ScaleFactor (tx : Nat)
  | InnerPosition (tx : Nat)
  | OuterPosition (tx : Nat)
  | InnerSize (tx : Nat)
  | OuterSize (tx : Nat)
  | IsFullscreen (tx : Nat)
  | IsMaximized (tx : Nat)
  | IsDecorated (tx : Nat)
  | IsResizable (tx : Nat)
  | IsVisible (tx : Nat)
  | CurrentMonitor (tx : Nat)
  | PrimaryMonitor (tx : Nat)
  | AvailableMonitors (tx : Nat)
  | SetResizable (b : Bool)
  | SetTitle (t : String)
  | Maximize
  | Unmaximize
  | Minimize
  | Unminimize
  | Show
  | Hide
  | Close
  | SetDecorations (b : Bool)
  | SetAlwaysOnTop (b : Bool)
  | SetSize (s : Size)
  | SetMinSize (s : Option Size)
  | SetMaxSize (s : Option Size)
  | SetPosition (p : Position)
  | SetFullscreen (b : Bool)
  | SetFocus
  | SetIcon (icon : Nat)
  | SetSkipTaskbar (b : Bool)
  | DragWindow
  deriving DecidableEq, Repr

/-- WebviewMessage. -/
inductive WebviewMessage
  | EvaluateScript (script : String)
  | Print
  deriving DecidableEq, Repr

/-- The cross-thread Message envelope.  The CreateWebview payload holds the
one-shot construction closure inside `Arc<Mutex<Option<..>>>`: the outer
`Option` is that slot (`none` = already taken), and the closure itself is
represented by the value it would return when invoked against the event
loop (`Except` of the construction error message or the built webview). -/
inductive Message
  | Window (id : Nat) (msg : WindowMessage)
  | Webview (id : Nat) (msg : WebviewMessage)
  | CreateWebview (handler : Option (Except String WebView)) (tx : Nat)

/-- Decidable equality for Except, needed to derive it for Reply. -/
def exceptDecEq {ε α : Type} [DecidableEq ε] [DecidableEq α] :
    (a b : Except ε α) → Decidable (a = b)
  | .ok a, .ok b =>
    if h : a = b then isTrue (by rw [h])
    else isFalse (by intro hh; cases hh; exact h rfl)
  | .ok _, .error _ => isFalse (by intro h; cases h)
  | .error _, .ok _ => isFalse (by intro h; cases h)
  | .error a, .error b =>
    if h : a = b then isTrue (by rw [h])
    else isFalse (by intro hh; cases hh; exact h rfl)

instance {ε α : Type} [DecidableEq ε] [DecidableEq α] :
    DecidableEq (Except ε α) := exceptDecEq

/-- Values travelling back on one-shot reply channels. -/
inductive Reply
  | num (v : Nat)
  | posResult (r : Except Error (Int × Int))
  | size (wh : Nat × Nat)
  | boolVal (b : Bool)
  | monitorOpt (m : Option NativeMonitor)
  | monitors (ms : List NativeMonitor)
  | createdWindow (id : Nat)
  deriving DecidableEq, Repr

/-- Public WindowEvent vocabulary (tauri_runtime::window::WindowEvent). -/
inductive WindowEvent
  | Resized (w h : Nat)
  | Moved (x y : Int)
  | CloseRequested
  | Destroyed
  | Focused (focused : Bool)
  | ScaleFactorChanged (scaleFactor : Nat) (w h : Nat)
  deriving DecidableEq, Repr

/-- Native window events (wry WindowEvent).  The six variants the runtime
translates appear verbatim; `Other` stands for the catch-all `_` arm, i.e.
every remaining native variant (keyboard, cursor, touch, ...). -/
inductive WryWindowEvent
  | Resized (w h : Nat)
  | Moved (x y : Int)
  | CloseRequested
  | Destroyed
  | Focused (focused : Bool)
  | ScaleFactorChanged (scaleFactor : Nat) (w h : Nat)
  | Other (tag : Nat)
  deriving DecidableEq, Repr

/-- Event loop events (wry Event) restricted to the arms the handler
matches on; `OtherEvent` is the `_ => ()` arm. -/
inductive Event
  | WindowEvent (windowId : Nat) (event : WryWindowEvent)
  | UserEvent (message : Message)
  | MainEventsCleared
  | OtherEvent (tag : Nat)

/-- ControlFlow of the native event loop (the two values the handler
assigns). -/
inductive ControlFlow
  | Wait
  | Exit
  deriving DecidableEq, Repr

/-- WindowEventWrapper::from(&WryWindowEvent): translates the known subset
into the public vocabulary and drops everything else. -/
def windowEventWrapper : WryWindowEvent → Option WindowEvent
  | .Resized w h => some (.Resized w h)
  | .Moved x y => some (.Moved x y)
  | .CloseRequested => some .CloseRequested
  | .Destroyed => some .Destroyed
  | .Focused f => some (.Focused f)
  | .ScaleFactorChanged sf w h => some (.ScaleFactorChanged sf w h)
  | .Other _ => none

/-- Lookup in the live window/webview table (HashMap<WindowId, WebView>,
keys unique), as used by `webviews.get_mut(&id)`. -/
def lookupWv : List (Nat × WebView) → Nat → Option WebView
  | [], _ => none
  | (k, v) :: rest, id => if k = id then some v else lookupWv rest id

/-- `webviews.remove(&id)`. -/
def removeWv : List (Nat × WebView) → Nat → List (Nat × WebView)
  | [], _ => []
  | (k, v) :: rest, id =>
    if k = id then removeWv rest id else (k, v) :: removeWv rest id

/-- `webviews.insert(id, wv)` (replaces an existing entry, appends
otherwise). -/
def insertWv : List (Nat × WebView) → Nat → WebView → List (Nat × WebView)
  | [], id, nv => [(id, nv)]
  | (k, v) :: rest, id, nv =>
    if k = id then (k, nv) :: rest else (k, v) :: insertWv rest id nv

/-- In-place value update used for setters applied through
`webviews.get_mut(&id)`. -/
def updateWv : List (Nat × WebView) → Nat → WebView → List (Nat × WebView)
  | [], _, _ => []
  | (k, v) :: rest, id, nv =>
    if k = id then (k, nv) :: rest else (k, v) :: updateWv rest id nv

/-- State threaded through one handler invocation: the live table (held
under its mutex for the whole tick), the queued main-thread tasks (opaque
closures, only their count is observable) and the loop control flow. -/
structure LoopState where
  webviews : List (Nat × WebView)
  tasks : Nat
  controlFlow : ControlFlow
  deriving DecidableEq, Repr

/-- Observable effects of one handler invocation: sends on one-shot reply
channels, window-event listener invocations (listener id, delivered
event) in invocation order, number of drained main-thread tasks, and
stderr logging. -/
structure LoopEffects where
  replies : List (Nat × Reply)
  listenerRuns : List (Nat × WindowEvent)
  tasksRun : Nat
  logged : List String
  deriving DecidableEq, Repr

/-- The per-tick script flush: `evaluate_script()` on every live webview,
errors only logged. -/
def flushLogs (webviews : List (Nat × WebView)) : List String :=
  webviews.filterMap fun p =>
    if p.2.evalScriptOk then none else some "evaluate_script error"

/-- The reply value produced for InnerPosition/OuterPosition: the native
Result is mapped with `.map_err(|_| Error::FailedToSendMessage)` before
being sent back. -/
def posReply : Option (Int × Int) → Except Error (Int × Int)
  | some p => Except.ok p
  | none => Except.error Error.FailedToSendMessage

/-- The native setter application performed by the Window(id, msg) arm for
each setter variant (Close is handled separately in the main function). -/
def applySetter (w : NativeWindow) : WindowMessage → NativeWindow
  | .SetResizable b => { w with resizable := b }
  | .SetTitle t => { w with title := t }
  | .Maximize => { w with maximized := true }
  | .Unmaximize => { w with maximized := false }
  | .Minimize => { w with minimized := true }
  | .Unminimize => { w with minimized := false }
  | .Show => { w with visible := true }
  | .Hide => { w with visible := false }
  | .SetDecorations b => { w with decorated := b }
  | .SetAlwaysOnTop b => { w with alwaysOnTop := b }
  | .SetSize s => { w with sizeRequest := some s }
  | .SetMinSize s => { w with minSize := s }
  | .SetMaxSize s => { w with maxSize := s }
  | .SetPosition p => { w with positionRequest := some p }
  | .SetFullscreen b => { w with fullscreen := b }
  | .SetFocus => { w with focused := true }
  | .SetIcon i => { w with icon := some i }
  | .SetSkipTaskbar b => { w with skipTaskbar := b }
  | .DragWindow => { w with dragging := true }
  | _ => w

/-- The reply a getter variant produces when applied to a live window, or
`none` for setter variants. -/
def getterReply (w : NativeWindow) : WindowMessage → Option Reply
  | .ScaleFactor _ => some (.num w.scaleFactor)
  | .InnerPosition _ => some (.posResult (posReply w.innerPosition))
  | .OuterPosition _ => some (.posResult (posReply w.outerPosition))
  | .InnerSize _ => some (.size w.innerSize)
  | .OuterSize _ => some (.size w.outerSize)
  | .IsFullscreen _ => some (.boolVal w.fullscreen)
  | .IsMaximized _ => some (.boolVal w.maximized)
  | .IsDecorated _ => some (.boolVal w.decorated)
  | .IsResizable _ => some (.boolVal w.resizable)
  | .IsVisible _ => some (.boolVal w.visible)
  | .CurrentMonitor _ => some (.monitorOpt w.currentMonitor)
  | .PrimaryMonitor _ => some (.monitorOpt w.primaryMonitor)
  | .AvailableMonitors _ => some (.monitors w.availableMonitors)
  | _ => none

/-- The reply channel carried by a getter variant (`none` for setters). -/
def WindowMessage.getterChannel : WindowMessage → Option Nat
  | .ScaleFactor tx => some tx
  | .InnerPosition tx => some tx
  | .OuterPosition tx => some tx
  | .InnerSize tx => some tx
  | .OuterSize tx => some tx
  | .IsFullscreen tx => some tx
  | .IsMaximized tx => some tx
  | .IsDecorated tx => some tx
  | .IsResizable tx => some tx
  | .IsVisible tx => some tx
  | .CurrentMonitor tx => some tx
  | .PrimaryMonitor tx => some tx
  | .AvailableMonitors tx => some tx
  | _ => none

/-- handle_event_loop (lib.rs lines 1083-1286).  Returns `Except.error`
with the panic message where the Rust code panics, otherwise the updated
state, the observable effects, and the RunIteration webview count.
Reply-channel receivers are modelled as live, so `tx.send(..).unwrap()`
always succeeds and is recorded in `replies`. -/
def handle_event_loop (listeners : List Nat) (event : Event)
    (s : LoopState) : Except String (LoopState × LoopEffects × Nat) :=
  let logs0 := flushLogs s.webviews
  let tasksRun := s.tasks
  let base : LoopState :=
    { webviews := s.webviews, tasks := 0, controlFlow := ControlFlow.Wait }
  match event with
  | .WindowEvent windowId wevent =>
    let runs :=
      match windowEventWrapper wevent with
      | some pub => listeners.map fun l => (l, pub)
      | none => []
    match wevent with
    | .CloseRequested =>
      let ws := removeWv base.webviews windowId
      let cf := if ws.isEmpty then ControlFlow.Exit else ControlFlow.Wait
      Except.ok ({ base with webviews := ws, controlFlow := cf },
        ⟨[], runs, tasksRun, logs0⟩, ws.length)
    | .Resized _ _ =>
      match lookupWv base.webviews windowId with
      | none => Except.error "no entry found for key"
      | some wv =>
        let logs := if wv.resizeOk then logs0 else logs0 ++ ["resize error"]
        Except.ok (base, ⟨[], runs, tasksRun, logs⟩, base.webviews.length)
    | _ => Except.ok (base, ⟨[], runs, tasksRun, logs0⟩, base.webviews.length)
  | .UserEvent msg =>
    match msg with
    | .Window id wmsg =>
      match lookupWv base.webviews id with
      | none =>
        Except.ok (base, ⟨[], [], tasksRun, logs0⟩, base.webviews.length)
      | some wv =>
        match getterReply wv.window wmsg, wmsg.getterChannel with
        | some r, some tx =>
          Except.ok (base, ⟨[(tx, r)], [], tasksRun, logs0⟩,
            base.webviews.length)
        | _, _ =>
          match wmsg with
          | .Close =>
            let ws := removeWv base.webviews id
            let cf := if ws.isEmpty then ControlFlow.Exit else ControlFlow.Wait
            Except.ok ({ base with webviews := ws, controlFlow := cf },
              ⟨[], [], tasksRun, logs0⟩, ws.length)
          | _ =>
            let wv2 := { wv with window := applySetter wv.window wmsg }
            let ws := updateWv base.webviews id wv2
            Except.ok ({ base with webviews := ws },
              ⟨[], [], tasksRun, logs0⟩, ws.length)
    | .Webview id wvmsg =>
      match lookupWv base.webviews id with
      | none =>
        Except.ok (base, ⟨[], [], tasksRun, logs0⟩, base.webviews.length)
      | some wv =>
        match wvmsg with
        | .EvaluateScript script =>
          let wv2 :=
            if wv.dispatchScriptOk then
              { wv with dispatchedScripts := wv.dispatchedScripts ++ [script] }
            else wv
          let ws := updateWv base.webviews id wv2
          Except.ok ({ base with webviews := ws },
            ⟨[], [], tasksRun, logs0⟩, ws.length)
        | .Print =>
          let wv2 :=
            if wv.printOk then { wv with printCount := wv.printCount + 1 }
            else wv
          let ws := updateWv base.webviews id wv2
          Except.ok ({ base with webviews := ws },
            ⟨[], [], tasksRun, logs0⟩, ws.length)
    | .CreateWebview handler tx =>
      match handler with
      | none => Except.error "called Option unwrap on a None value"
      | some result =>
        match result with
        | .ok wv =>
          let wid := wv.window.id
          let ws := insertWv base.webviews wid wv
          Except.ok ({ base with webviews := ws },
            ⟨[(tx, .createdWindow wid)], [], tasksRun, logs0⟩, ws.length)
        | .error e =>
          Except.ok (base, ⟨[], [], tasksRun, logs0 ++ [e]⟩,
            base.webviews.length)
  | _ => Except.ok (base, ⟨[], [], tasksRun, logs0⟩, base.webviews.length)

/-! Dispatcher side (WryDispatcher getters, lib.rs lines 475-587). -/

/-- The thirteen getter operations of the Dispatch impl. -/
inductive WindowGetter
  | scale_factor
  | inner_position
  | outer_position
  | inner_size
  | outer_size
  | is_fullscreen
  | is_maximized
  | is_decorated
  | is_resizable
  | is_visible
  | current_monitor
  | primary_monitor
  | available_monitors
  deriving DecidableEq, Repr

/-- The WindowMessage each getter wraps its fresh reply channel in. -/
def getterMessage : WindowGetter → Nat → WindowMessage
  | .scale_factor, tx => .ScaleFactor tx
  | .inner_position, tx => .InnerPosition tx
  | .outer_position, tx => .OuterPosition tx
  | .inner_size, tx => .InnerSize tx
  | .outer_size, tx => .OuterSize tx
  | .is_fullscreen, tx => .IsFullscreen tx
  | .is_maximized, tx => .IsMaximized tx
  | .is_decorated, tx => .IsDecorated tx
  | .is_resizable, tx => .IsResizable tx
  | .is_visible, tx => .IsVisible tx
  | .current_monitor, tx => .CurrentMonitor tx
  | .primary_monitor, tx => .PrimaryMonitor tx
  | .available_monitors, tx => .AvailableMonitors tx

/-- Allocation of a fresh one-shot channel: `channel()` yields a channel
distinct from every existing one, modelled as a number outside the list
of ids already in use. -/
def freshChannel (used : List Nat) : Nat := used.foldr max 0 + 1

/-- Outcome of the `dispatcher_getter!` macro body as seen by the calling
thread: the received reply, the mapped send failure, or the panic of
`rx.recv().unwrap()` when the reply channel is disconnected before a
reply arrives. -/
inductive GetterOutcome (α : Type)
  | ok (a : α)
  | sendFailed
  | panicked
  deriving DecidableEq, Repr

/-- dispatcher_getter! (lib.rs lines 475-485): send the message (the send
can fail only when the event loop is gone), then block on the reply
channel; `reply` is the value the event-loop thread puts on the channel
before dropping it, `none` when it drops the sender without replying. -/
def dispatcher_getter {α : Type} (sendOk : Bool) (reply : Option α) :
    GetterOutcome α :=
  if sendOk then
    match reply with
    | some a => GetterOutcome.ok a
    | none => GetterOutcome.panicked
  else GetterOutcome.sendFailed

/-- One full getter call: allocate the fresh channel, build the message
the dispatcher sends, and run the macro body. -/
def dispatcher_getter_call (g : WindowGetter) (windowId : Nat)
    (used : List Nat) (sendOk : Bool) (reply : Option Reply) :
    Message × GetterOutcome Reply :=
  let tx := freshChannel used
  (Message.Window windowId (getterMessage g tx), dispatcher_getter sendOk reply)

/-- The two position getters whose public return type is the transported
Result itself (no `Ok(..)` wrapping in the dispatcher). -/
inductive PosGetter
  | inner
  | outer
  deriving DecidableEq, Repr

/-- The message a position getter sends. -/
def posMessage : PosGetter → Nat → WindowMessage
  | .inner, tx => .InnerPosition tx
  | .outer, tx => .OuterPosition tx

/-- The native position field a position getter queries. -/
def posField : PosGetter → NativeWindow → Option (Int × Int)
  | .inner, w => w.innerPosition
  | .outer, w => w.outerPosition

/-- What the application code calling inner_position/outer_position
observes. -/
inductive CallerView
  | value (p : Int × Int)
  | failure (e : Error)
  | panicked
  deriving DecidableEq, Repr

/-- inner_position/outer_position as seen by the caller: the dispatcher
returns the received Result unchanged, maps a send failure to
Error::FailedToSendMessage, and panics on a disconnected reply channel. -/
def position_call (sendOk : Bool)
    (reply : Option (Except Error (Int × Int))) : CallerView :=
  match dispatcher_getter sendOk reply with
  | .sendFailed => .failure Error.FailedToSendMessage
  | .panicked => .panicked
  | .ok (Except.ok p) => .value p
  | .ok (Except.error e) => .failure e

/-! Window/webview construction (create_webview, lib.rs lines 1288-1333)
and icon conversion (WryIcon::try_from, lines 78-108). -/

/-- Icon (tauri_runtime::Icon); `OtherVariant` marks the non_exhaustive
variants hit by the `_ => unimplemented!()` arm. -/
inductive Icon
  | File (path : String)
  | Raw (bytes : List Nat)
  | OtherVariant
  deriving DecidableEq, Repr

/-- Outcome of a fallible native construction step: a value, a typed
error, or a Rust panic with its message. -/
inductive BuildStep (α : Type)
  | ok (a : α)
  | err (e : Error)
  | panicked (msg : String)
  deriving DecidableEq, Repr

/-- One entry of a parsed ico directory: its decode result (rgba bytes)
and dimensions. -/
structure IcoEntry where
  decodeResult : Except String (List Nat)
  width : Nat
  height : Nat

/-- The external decoding capabilities WryIcon::try_from invokes:
std::fs::read, the `infer` crate's type detection, ico parsing, and
WindowIcon::from_rgba.  The embedding models the cfg(windows) build, the
only configuration in which the `"ico"` arm exists. -/
structure IconNative where
  fsRead : String → Except String (List Nat)
  inferGet : List Nat → Option String
  icoRead : List Nat → Except String (List IcoEntry)
  fromRgba : List Nat → Nat → Nat → Except String Nat

/-- The shared tail of WryIcon::try_from once the image bytes are in
hand: infer the extension (`.expect` panics when undetermined), decode
ico data on the `"ico"` arm (ico parse errors, entry decode errors and
from_rgba errors become Error::InvalidIcon; an empty entry table panics
on the `entries()[0]` index), and panic on every other extension. -/
def iconFromBytes (n : IconNative) (bytes : List Nat) : BuildStep Nat :=
  match n.inferGet bytes with
  | none => .panicked "could not determine icon extension"
  | some ext =>
    if ext = "ico" then
      match n.icoRead bytes with
      | .error e => .err (Error.InvalidIcon e)
      | .ok [] => .panicked "index out of bounds"
      | .ok (entry :: _) =>
        match entry.decodeResult with
        | .error e => .err (Error.InvalidIcon e)
        | .ok rgba =>
          match n.fromRgba rgba entry.width entry.height with
          | .error e => .err (Error.InvalidIcon e)
          | .ok icon => .ok icon
    else .panicked "image extension not supported"

/-- WryIcon::try_from (lib.rs lines 78-108). -/
def wry_icon_try_from (n : IconNative) : Icon → BuildStep Nat
  | .File path =>
    match n.fsRead path with
    | .error e => .err (Error.InvalidIcon e)
    | .ok bytes => iconFromBytes n bytes
  | .Raw bytes => iconFromBytes n bytes
  | .OtherVariant => .panicked "not implemented"

/-- The declarative pending-window description fields create_webview
destructures (handlers are carried as flags: wiring them does not fail). -/
structure PendingWindow where
  url : String
  transparent : Bool
  hasRpcHandler : Bool
  hasFileDropHandler : Bool
  uriSchemeProtocols : List String
  dataDirectory : Option String
  initializationScripts : List String

/-- The native operations create_webview invokes, each represented by the
result it would produce: the window builder's build (its failure is
`.unwrap()`ed), WebViewBuilder::new, url parsing inside with_url (also
`.unwrap()`ed), and the final webview build. -/
structure WebviewNative where
  windowBuild : Except String Nat
  webviewNew : Nat → Except String Unit
  urlParse : String → Bool
  finalBuild : Except String WebView

/-- create_webview (lib.rs lines 1288-1333). -/
def create_webview (n : WebviewNative) (pending : PendingWindow) :
    BuildStep WebView :=
  match n.windowBuild with
  | .error e => .panicked e
  | .ok window =>
    match n.webviewNew window with
    | .error e => .err (Error.CreateWebview e)
    | .ok _ =>
      if n.urlParse pending.url then
        match n.finalBuild with
        | .error e => .err (Error.CreateWebview e)
        | .ok wv => .ok wv
      else .panicked "invalid url"

end TauriWry

namespace TauriUpdater

/-! Updater flow (src/core/tauri/src/updater/core.rs): release manifest
parsing, UpdateBuilder::build, Update::download_and_install and
verify_signature.  HTTP, filesystem and minisign primitives are external
capabilities and enter as explicit parameters recording the result each
call would produce. -/

/-- updater::error::Error variants reached from core.rs (the error enum
itself lives outside the reviewed sources; variant names follow the
constructors used at each `?` conversion site). -/
inductive UpdaterError
  | Builder (msg : String)
  | RemoteMetadata (msg : String)
  | Network (msg : String)
  | UpToDate
  | PubkeyButNoSignature
  | UnsupportedPlatform
  | Io (msg : String)
  | Base64 (msg : String)
  | Utf8 (msg : String)
  | Minisign (msg : String)
  deriving DecidableEq, Repr

/-- The message text of an error (Display impl, modelled: the updater only
feeds it into Error::Network, the exact rendering is immaterial). -/
def UpdaterError.text : UpdaterError → String
  | .Builder m => m
  | .RemoteMetadata m => m
  | .Network m => m
  | .UpToDate => "up to date"
  | .PubkeyButNoSignature => "pubkey but no signature"
  | .UnsupportedPlatform => "unsupported platform"
  | .Io m => m
  | .Base64 m => m
  | .Utf8 m => m
  | .Minisign m => m

/-- JSON values (serde_json::Value); objects keep field order, `get`
returns the first binding of a key. -/
inductive Json
  | null
  | boolean (b : Bool)
  | num (n : Int)
  | str (s : String)
  | arr (elems : List Json)
  | obj (fields : List (String × Json))

/-- Key lookup among object fields. -/
def jsonFind : List (String × Json) → String → Option Json
  | [], _ => none
  | (k, v) :: rest, key => if k = key then some v else jsonFind rest key

/-- Value::get(key): defined on objects only. -/
def Json.get : Json → String → Option Json
  | .obj fields, key => jsonFind fields key
  | _, _ => none

/-- Value::as_str(). -/
def Json.asStr : Json → Option String
  | .str s => some s
  | _ => none

/-- `trim_start_matches('v')`: drop every leading 'v'. -/
def trimStartV (s : String) : String :=
  String.mk (s.toList.dropWhile fun c => c = 'v')

/-- RemoteRelease. -/
structure RemoteRelease where
  version : String
  date : String
  download_url : String
  body : Option String
  signature : Option String
  deriving DecidableEq, Repr

/-- RemoteRelease::from_release (core.rs lines 50-147). -/
def from_release (release : Json) (target : String) :
    Except UpdaterError RemoteRelease :=
  let versionResult : Except UpdaterError String :=
    match release.get "version" with
    | some v =>
      match v.asStr with
      | some s => Except.ok (trimStartV s)
      | none =>
        Except.error
          (.RemoteMetadata "Unable to extract version from remote server")
    | none =>
      match release.get "name" with
      | some n =>
        match n.asStr with
        | some s => Except.ok (trimStartV s)
        | none =>
          Except.error
            (.RemoteMetadata "Unable to extract name from remote server")
      | none =>
        Except.error (.RemoteMetadata "Release missing name and version")
  match versionResult with
  | .error e => Except.error e
  | .ok version =>
    let date :=
      match release.get "pub_date" with
      | some d => d.asStr.getD "N/A"
      | none => "N/A"
    let body := (release.get "notes").map fun n => n.asStr.getD ""
    let rootSignature :=
      (release.get "signature").map fun s => s.asStr.getD ""
    match release.get "platforms" with
    | some platforms =>
      match platforms.get target with
      | some currentTargetData =>
        let signature :=
          (currentTargetData.get "signature").map fun s => s.asStr.getD ""
        match currentTargetData.get "url" with
        | none => Except.error (.RemoteMetadata "Release missing url")
        | some u =>
          match u.asStr with
          | none =>
            Except.error
              (.RemoteMetadata "Unable to extract url from remote server")
          | some durl =>
            Except.ok ⟨version, date, durl, body, signature⟩
      | none => Except.error (.RemoteMetadata "Platform not available")
    | none =>
      match release.get "url" with
      | none => Except.error (.RemoteMetadata "Release missing url")
      | some u =>
        match u.asStr with
        | none =>
          Except.error
            (.RemoteMetadata "Unable to extract url from remote server")
        | some durl =>
          Except.ok ⟨version, date, durl, body, rootSignature⟩

/-- Outcome of fetching one candidate URL: the transport failure of
`send`, a failure of `res.read()` (already converted to the updater
error it propagates as), or a delivered response with its status code
and JSON body.  Status codes come from the HTTP client's StatusCode, so
they are always valid three-digit codes and the
`StatusCode::from_u16(..).unwrap()` on the re-parsed value cannot fail. -/
inductive HttpOutcome
  | sendErr
  | readErr (e : UpdaterError)
  | response (status : Nat) (data : Json)

/-- StatusCode::is_success(). -/
def isSuccessStatus (s : Nat) : Bool := 200 ≤ s && s < 300

/-- Replace every non-overlapping occurrence of `pat` left to right
(str::replace of the Rust standard library, modelled with explicit fuel
so it evaluates by kernel reduction; one character is consumed per fuel
unit, so the character count is enough fuel). -/
def replaceAux : Nat → List Char → List Char → List Char → List Char
  | 0, cs, _, _ => cs
  | _, [], _, _ => []
  | Nat.succ fuel, c :: rest, pat, rep =>
    if decide (pat ≠ []) && decide ((c :: rest).take pat.length = pat) then
      rep ++ replaceAux fuel ((c :: rest).drop pat.length) pat rep
    else c :: replaceAux fuel rest pat rep

/-- str::replace. -/
def strReplace (s pat rep : String) : String :=
  String.mk (replaceAux s.toList.length s.toList pat.toList rep.toList)

/-- URL template substitution applied to each candidate URL. -/
def fixedLink (url currentVersion target : String) : String :=
  strReplace (strReplace url "\x7b\x7bcurrent_version\x7d\x7d" currentVersion)
    "\x7b\x7btarget\x7d\x7d" target

/-- The `for url in &self.urls` loop of UpdateBuilder::build (core.rs
lines 263-318): resolves to an early return (`Except.error`: the `?` on
`res.read()` or the 204 UpToDate return) or to the final pair
(last_error, remote_release) the loop leaves behind. -/
def try_urls (fetch : String → HttpOutcome) (currentVersion target : String)
    (lastError : Option UpdaterError) :
    List String →
      Except UpdaterError (Option UpdaterError × Option RemoteRelease)
  | [] => Except.ok (lastError, none)
  | url :: rest =>
    match fetch (fixedLink url currentVersion target) with
    | .sendErr => try_urls fetch currentVersion target lastError rest
    | .readErr e => Except.error e
    | .response status data =>
      if isSuccessStatus status then
        if status = 204 then Except.error UpdaterError.UpToDate
        else
          match from_release data target with
          | .ok release => Except.ok (none, some release)
          | .error e => try_urls fetch currentVersion target (some e) rest
      else try_urls fetch currentVersion target lastError rest

/-- The Update value UpdateBuilder::build assembles. -/
structure Update where
  target : String
  should_update : Bool
  version : String
  date : String
  current_version : String
  download_url : String
  body : Option String
  signature : Option String
  deriving DecidableEq, Repr

/-- UpdateBuilder fields. -/
structure UpdateBuilder where
  current_version : String
  urls : List String
  target : Option String
  executable_path : Option String

/-- External capabilities of build: the HTTP fetch of each URL,
env::current_exe (used only when no executable_path was provided),
get_updater_target() (a cfg constant), and api::version::is_greater
(semver comparison, a module outside the reviewed sources). -/
structure BuildEnv where
  fetch : String → HttpOutcome
  currentExe : Except String String
  updaterTarget : Option String
  isGreater : String → String → Option Bool

/-- Resolution of the executable path (build lines 230-236). -/
def resolveExe (b : UpdateBuilder) (env : BuildEnv) :
    Except UpdaterError String :=
  match b.executable_path with
  | some v => Except.ok v
  | none =>
    match env.currentExe with
    | .ok p => Except.ok p
    | .error e => Except.error (.Io e)

/-- Resolution of the target (build lines 240-244). -/
def resolveTarget (b : UpdateBuilder) (env : BuildEnv) :
    Except UpdaterError String :=
  match b.target with
  | some t => Except.ok t
  | none =>
    match env.updaterTarget with
    | some t => Except.ok t
    | none => Except.error .UnsupportedPlatform

/-- UpdateBuilder::build (core.rs lines 216-348). -/
def build (b : UpdateBuilder) (env : BuildEnv) :
    Except UpdaterError Update :=
  if b.urls.isEmpty then
    Except.error (.Builder "Unable to check update, url is required.")
  else
    match resolveExe b env with
    | .error e => Except.error e
    | .ok _ =>
      match resolveTarget b env with
      | .error e => Except.error e
      | .ok target =>
        match try_urls env.fetch b.current_version target none b.urls with
        | .error e => Except.error e
        | .ok (some e, _) => Except.error (.Network e.text)
        | .ok (none, none) =>
          Except.error (.RemoteMetadata
            "Unable to extract update metadata from the remote server.")
        | .ok (none, some release) =>
          Except.ok
            { target := target
              should_update :=
                (env.isGreater b.current_version release.version).getD false
              version := release.version
              date := release.date
              current_version := b.current_version
              download_url := release.download_url
              body := release.body
              signature := release.signature }

/-! Update::download_and_install (core.rs lines 379-471) and
verify_signature (lines 754-778). -/

/-- The minisign / base64 / filesystem primitives verify_signature
invokes, each given by the result it would produce. -/
structure SigNative where
  b64decode : String → Except String (List Nat)
  utf8Decode : List Nat → Except String String
  pkDecode : String → Except String Nat
  sigDecode : String → Except String Nat
  fileRead : Except String (List Nat)
  pkVerify : Nat → List Nat → Nat → Except String Unit

/-- base64_to_string (core.rs lines 745-749). -/
def base64_to_string (n : SigNative) (s : String) :
    Except UpdaterError String :=
  match n.b64decode s with
  | .error e => Except.error (.Base64 e)
  | .ok decoded =>
    match n.utf8Decode decoded with
    | .error e => Except.error (.Utf8 e)
    | .ok r => Except.ok r

/-- verify_signature (core.rs lines 754-778). -/
def verify_signature (n : SigNative) (release_signature pub_key : String) :
    Except UpdaterError Bool :=
  match base64_to_string n pub_key with
  | .error e => Except.error e
  | .ok pkDecoded =>
    match n.pkDecode pkDecoded with
    | .error e => Except.error (.Minisign e)
    | .ok publicKey =>
      match base64_to_string n release_signature with
      | .error e => Except.error e
      | .ok sigDecoded =>
        match n.sigDecode sigDecoded with
        | .error e => Except.error (.Minisign e)
        | .ok signature =>
          match n.fileRead with
          | .error e => Except.error (.Io e)
          | .ok data =>
            match n.pkVerify publicKey data signature with
            | .error e => Except.error (.Minisign e)
            | .ok _ => Except.ok true

/-- External steps of download_and_install, each as the result it would
produce; `isLinux`/`appimageSet` model the cfg(target_os = "linux")
APPIMAGE guard. -/
structure InstallEnv where
  isLinux : Bool
  appimageSet : Bool
  tmpDir : Except String Unit
  fileCreate : Except String Unit
  download : Except UpdaterError (Nat × List Nat)
  writeAll : Except String Unit
  sig : SigNative
  extractArchive : Except String Unit
  removeArchive : Except String Unit
  copyAndRun : Except String Unit

/-- Which irreversible steps ran: archive extraction and the
platform-specific application replacement. -/
structure InstallEffects where
  extracted : Bool
  installed : Bool
  deriving DecidableEq, Repr

/-- The signature gate of download_and_install (core.rs lines 448-460):
run only when a public key is configured; requires an announced
signature and a successful verification. -/
def sigCheckOf (env : InstallEnv) (u : Update) (pub_key : Option String) :
    Except UpdaterError Unit :=
  match pub_key with
  | none => Except.ok ()
  | some pk =>
    match u.signature with
    | some s =>
      match verify_signature env.sig s pk with
      | .error e => Except.error e
      | .ok _ => Except.ok ()
    | none => Except.error .PubkeyButNoSignature

/-- The install tail of download_and_install (core.rs lines 461-470):
extract the archive, remove it, replace and run the application. -/
def installTail (env : InstallEnv) :
    Except UpdaterError Unit × InstallEffects :=
  match env.extractArchive with
  | .error e => (Except.error (.Io e), ⟨true, false⟩)
  | .ok _ =>
    match env.removeArchive with
    | .error e => (Except.error (.Io e), ⟨true, false⟩)
    | .ok _ =>
      match env.copyAndRun with
      | .error e => (Except.error (.Io e), ⟨true, true⟩)
      | .ok _ => (Except.ok (), ⟨true, true⟩)

/-- Update::download_and_install (core.rs lines 379-471), returning its
result together with which install steps were reached. -/
def download_and_install (env : InstallEnv) (u : Update)
    (pub_key : Option String) :
    Except UpdaterError Unit × InstallEffects :=
  let none_ : InstallEffects := ⟨false, false⟩
  if env.isLinux && !env.appimageSet then
    (Except.error .UnsupportedPlatform, none_)
  else
    match env.tmpDir with
    | .error e => (Except.error (.Io e), none_)
    | .ok _ =>
      match env.fileCreate with
      | .error e => (Except.error (.Io e), none_)
      | .ok _ =>
        match env.download with
        | .error e => (Except.error e, none_)
        | .ok (status, _) =>
          if !isSuccessStatus status then
            (Except.error
              (.Network "Download request failed with status"), none_)
          else
            match env.writeAll with
            | .error e => (Except.error (.Io e), none_)
            | .ok _ =>
              match sigCheckOf env u pub_key with
              | .error e => (Except.error e, none_)
              | .ok _ => installTail env

/-- A candidate URL the fetch loop skips and keeps going past: transport
failure, non-2xx status, or a 2xx (non-204) response whose manifest does
not parse. -/
def urlSkipped (fetch : String → HttpOutcome) (currentVersion target : String)
    (url : String) : Bool :=
  match fetch (fixedLink url currentVersion target) with
  | .sendErr => true
  | .readErr _ => false
  | .response status data =>
    if isSuccessStatus status then
      if status = 204 then false
      else
        match from_release data target with
        | .ok _ => false
        | .error _ => true
    else true

/-- A candidate URL that delivers release `r`: 2xx non-204 response whose
manifest parses to `r`. -/
def urlDelivers (fetch : String → HttpOutcome) (currentVersion target : String)
    (url : String) (r : RemoteRelease) : Bool :=
  match fetch (fixedLink url currentVersion target) with
  | .response status data =>
    if isSuccessStatus status then
      if status = 204 then false
      else
        match from_release data target with
        | .ok r2 => decide (r2 = r)
        | .error _ => false
    else false
  | _ => false

/-- Every step of download_and_install preceding the signature check
succeeds: the platform guard passes, temp dir and archive file are
created, the download returns a 2xx response and the archive is written. -/
def preInstallOk (env : InstallEnv) : Bool :=
  !(env.isLinux && !env.appimageSet) &&
    (match env.tmpDir with | .ok _ => true | .error _ => false) &&
    (match env.fileCreate with | .ok _ => true | .error _ => false) &&
    (match env.download with
      | .ok (status, _) => isSuccessStatus status
      | .error _ => false) &&
    (match env.writeAll with | .ok _ => true | .error _ => false)

end TauriUpdater

namespace TauriWry

/-! Concrete sample data used by witnesses and counterexamples. -/

/-- A plain live native window; its position queries fail natively
(`Err(NotSupportedError)`), as on platforms without window positions. -/
def sampleWindow : NativeWindow :=
  { id := 1
    scaleFactor := 1
    innerPosition := none
    outerPosition := none
    innerSize := (800, 600)
    outerSize := (800, 600)
    fullscreen := false
    maximized := false
    minimized := false
    decorated := true
    resizable := true
    visible := true
    alwaysOnTop := false
    skipTaskbar := false
    focused := false
    dragging := false
    title := "T"
    icon := none
    minSize := none
    maxSize := none
    sizeRequest := none
    positionRequest := none
    currentMonitor := none
    primaryMonitor := none
    availableMonitors := [] }

/-- A live webview whose native calls all succeed. -/
def sampleWebView : WebView :=
  { window := sampleWindow
    dispatchedScripts := []
    printCount := 0
    evalScriptOk := true
    dispatchScriptOk := true
    printOk := true
    resizeOk := true }

/-- A loop state holding exactly the sample webview under window id 1. -/
def sampleState : LoopState :=
  { webviews := [(1, sampleWebView)], tasks := 0, controlFlow := .Wait }

/-- Native construction capabilities whose window build fails. -/
def badWebviewNative : WebviewNative :=
  { windowBuild := Except.error "window build failed"
    webviewNew := fun _ => Except.ok ()
    urlParse := fun _ => true
    finalBuild := Except.ok sampleWebView }

/-- A plain pending-window description. -/
def samplePending : PendingWindow :=
  { url := "tauri://localhost"
    transparent := false
    hasRpcHandler := false
    hasFileDropHandler := false
    uriSchemeProtocols := []
    dataDirectory := none
    initializationScripts := [] }

/-- File-type detection of the external `infer` crate restricted to the
two magic numbers exercised here (ico and png). -/
def magicInfer (bytes : List Nat) : Option String :=
  if bytes.take 4 = [0, 0, 1, 0] then some "ico"
  else if bytes.take 4 = [137, 80, 78, 71] then some "png"
  else none

/-- Icon decoding capabilities that succeed on every ico input. -/
def sampleIconNative : IconNative :=
  { fsRead := fun _ => Except.error "no such file"
    inferGet := magicInfer
    icoRead := fun _ => Except.ok [⟨Except.ok [0, 0, 0, 0], 1, 1⟩]
    fromRgba := fun _ _ _ => Except.ok 7 }

end TauriWry

namespace TauriUpdater

/-- A flat-schema release manifest. -/
def sampleManifest : Json :=
  .obj [("version", .str "v2.0.0"),
        ("url", .str "https://example.com/app.tar.gz")]

/-- The release sampleManifest parses to. -/
def sampleRelease : RemoteRelease :=
  { version := "2.0.0"
    date := "N/A"
    download_url := "https://example.com/app.tar.gz"
    body := none
    signature := none }

/-- Environment whose fetch always delivers sampleManifest with 200. -/
def witnessEnv : BuildEnv :=
  { fetch := fun _ => .response 200 sampleManifest
    currentExe := Except.ok "/usr/bin/app"
    updaterTarget := some "linux"
    isGreater := fun _ _ => some true }

/-- A builder with a single URL. -/
def witnessBuilder : UpdateBuilder :=
  { current_version := "1.0.0"
    urls := ["https://updates.example.com/u"]
    target := none
    executable_path := none }

/-- Fetch where the first URL's response body fails to read and the
second delivers sampleManifest. -/
def cexFetch : String → HttpOutcome := fun url =>
  if url = "https://one.example.com/u" then
    .readErr (.Io "body read failed")
  else .response 200 sampleManifest

/-- Environment built over cexFetch. -/
def cexEnv : BuildEnv :=
  { fetch := cexFetch
    currentExe := Except.ok "/usr/bin/app"
    updaterTarget := some "linux"
    isGreater := fun _ _ => some true }

/-- Builder listing the failing URL before the good one. -/
def cexBuilder : UpdateBuilder :=
  { current_version := "1.0.0"
    urls := ["https://one.example.com/u", "https://two.example.com/u"]
    target := some "linux"
    executable_path := some "/opt/app" }

/-- The same builder with only the good URL. -/
def cexBuilderGoodOnly : UpdateBuilder :=
  { current_version := "1.0.0"
    urls := ["https://two.example.com/u"]
    target := some "linux"
    executable_path := some "/opt/app" }

/-- Minisign capabilities under which signature verification fails at the
final verify step. -/
def badSigNative : SigNative :=
  { b64decode := fun _ => Except.ok [116]
    utf8Decode := fun _ => Except.ok "t"
    pkDecode := fun _ => Except.ok 1
    sigDecode := fun _ => Except.ok 2
    fileRead := Except.ok [1, 2, 3]
    pkVerify := fun _ _ _ => Except.error "signature mismatch" }

/-- Install environment whose pre-signature steps all succeed. -/
def sampleInstallEnv : InstallEnv :=
  { isLinux := false
    appimageSet := false
    tmpDir := Except.ok ()
    fileCreate := Except.ok ()
    download := Except.ok (200, [1, 2, 3])
    writeAll := Except.ok ()
    sig := badSigNative
    extractArchive := Except.ok ()
    removeArchive := Except.ok ()
    copyAndRun := Except.ok () }

/-- An update announcing no signature. -/
def updateNoSig : Update :=
  { target := "linux"
    should_update := true
    version := "2.0.0"
    date := "N/A"
    current_version := "1.0.0"
    download_url := "https://example.com/app.tar.gz"
    body := none
    signature := none }

/-- The same update announcing a signature. -/
def updateWithSig : Update :=
  { updateNoSig with signature := some "c2ln" }

end TauriUpdater

/-! Theorems. -/

namespace TauriWry

lemma mem_le_foldr_max (l : List Nat) : ∀ x ∈ l, x ≤ l.foldr max 0 := by
  induction l with
  | nil => intro x hx; cases hx
  | cons a t ih =>
    intro x hx
    rcases List.mem_cons.mp hx with h | h
    · subst h; exact le_max_left _ _
    · exact le_trans (ih x h) (le_max_right _ _)

lemma freshChannel_not_mem (used : List Nat) : freshChannel used ∉ used := by
  intro h
  have := mem_le_foldr_max used _ h
  simp [freshChannel] at this

/-- C1 counterexample: the loop's reply to an InnerPosition getter on a
live window whose native position query fails is the FailedToSendMessage
error, and the dispatcher hands exactly that error to the caller even
though the channel send succeeded — so the claim that the getter
"returns a failed-to-send error exactly when the channel send fails" is
false at this input. -/
theorem C1_counterexample :
    handle_event_loop [] (.UserEvent (.Window 1 (.InnerPosition 5)))
        sampleState =
      Except.ok
        ({ webviews := [(1, sampleWebView)], tasks := 0,
           controlFlow := .Wait },
         ⟨[(5, .posResult (Except.error Error.FailedToSendMessage))], [],
          0, []⟩, 1) ∧
    position_call true (some (Except.error Error.FailedToSendMessage)) =
      CallerView.failure Error.FailedToSendMessage := by
  exact ⟨rfl, rfl⟩

/-- C1 (amended): every getter sends a Window command carrying a freshly
created one-shot reply channel and blocks on it; the send failure is
mapped to the failed-to-send error and a reply channel disconnected
before a reply panics; for the eleven Ok-wrapped getters that error
arises exactly on send failure, while inner_position/outer_position also
surface it when the send succeeded but the reply carries the native
position query's failure. -/
theorem C1_amended_thm (g : WindowGetter) (windowId : Nat) (used : List Nat)
    (sendOk : Bool) (reply : Option Reply)
    (preply : Option (Except Error (Int × Int))) :
    (dispatcher_getter_call g windowId used sendOk reply).1 =
        Message.Window windowId (getterMessage g (freshChannel used)) ∧
    freshChannel used ∉ used ∧
    (getterMessage g (freshChannel used)).getterChannel =
        some (freshChannel used) ∧
    ((dispatcher_getter_call g windowId used sendOk reply).2 =
        GetterOutcome.sendFailed ↔ sendOk = false) ∧
    ((dispatcher_getter_call g windowId used sendOk reply).2 =
        GetterOutcome.panicked ↔ sendOk = true ∧ reply = none) ∧
    (position_call sendOk preply =
        CallerView.failure Error.FailedToSendMessage ↔
      sendOk = false ∨
        (sendOk = true ∧
          preply = some (Except.error Error.FailedToSendMessage))) := by
  refine ⟨rfl, freshChannel_not_mem used, ?_, ?_, ?_, ?_⟩
  · cases g <;> rfl
  · cases sendOk <;> cases reply <;>
      simp [dispatcher_getter_call, dispatcher_getter]
  · cases sendOk <;> cases reply <;>
      simp [dispatcher_getter_call, dispatcher_getter]
  · cases sendOk <;>
      rcases preply with _ | (p | e) <;>
      simp [position_call, dispatcher_getter]

/-- C2: a Window or Webview command addressed to an id absent from the
live table is silently dropped: the handler succeeds (no panic), leaves
the table untouched, sends no reply, runs no listener and logs nothing
beyond the unconditional per-tick script flush. -/
theorem C2_missing_window_noop (listeners : List Nat) (s : LoopState)
    (id : Nat) (h : lookupWv s.webviews id = none) :
    (∀ wmsg : WindowMessage,
      handle_event_loop listeners (.UserEvent (.Window id wmsg)) s =
        Except.ok
          ({ webviews := s.webviews, tasks := 0, controlFlow := .Wait },
           ⟨[], [], s.tasks, flushLogs s.webviews⟩, s.webviews.length)) ∧
    (∀ wvmsg : WebviewMessage,
      handle_event_loop listeners (.UserEvent (.Webview id wvmsg)) s =
        Except.ok
          ({ webviews := s.webviews, tasks := 0, controlFlow := .Wait },
           ⟨[], [], s.tasks, flushLogs s.webviews⟩, s.webviews.length)) := by
  constructor <;> intro m <;> simp [handle_event_loop, h]

/-- C2 witness at window id 2, absent from sampleState. -/
theorem C2_witness :
    lookupWv sampleState.webviews 2 = none ∧
    handle_event_loop [] (.UserEvent (.Window 2 WindowMessage.Close))
        sampleState =
      Except.ok
        ({ webviews := sampleState.webviews, tasks := 0,
           controlFlow := .Wait },
         ⟨[], [], sampleState.tasks, flushLogs sampleState.webviews⟩,
         sampleState.webviews.length) :=
  ⟨rfl, (C2_missing_window_noop [] sampleState 2 rfl).1 WindowMessage.Close⟩

/-- C5: when the event loop processes a CreateWebview message whose
construction closure fails, the error is only logged — the table is
unchanged and nothing is ever sent on the creation reply channel; when
the closure succeeds, the webview is inserted under its window id and
that id is sent on the reply channel. -/
theorem C5_create_webview (listeners : List Nat) (s : LoopState) (tx : Nat) :
    (∀ e : String,
      handle_event_loop listeners
          (.UserEvent (.CreateWebview (some (Except.error e)) tx)) s =
        Except.ok
          ({ webviews := s.webviews, tasks := 0, controlFlow := .Wait },
           ⟨[], [], s.tasks, flushLogs s.webviews ++ [e]⟩,
           s.webviews.length)) ∧
    (∀ wv : WebView,
      handle_event_loop listeners
          (.UserEvent (.CreateWebview (some (Except.ok wv)) tx)) s =
        Except.ok
          ({ webviews := insertWv s.webviews wv.window.id wv, tasks := 0,
             controlFlow := .Wait },
           ⟨[(tx, Reply.createdWindow wv.window.id)], [], s.tasks,
            flushLogs s.webviews⟩,
           (insertWv s.webviews wv.window.id wv).length)) :=
  ⟨fun _ => rfl, fun _ => rfl⟩

/-- C9: a native Resized event for a window id absent from the live table
makes the handler panic — the built-in resize reaction indexes the table
unchecked. -/
theorem C9_resized_missing_panics (listeners : List Nat) (s : LoopState)
    (id w h : Nat) (hl : lookupWv s.webviews id = none) :
    handle_event_loop listeners (.WindowEvent id (.Resized w h)) s =
      Except.error "no entry found for key" := by
  simp [handle_event_loop, hl]

/-- C9 witness: Resized for the absent id 2 panics on sampleState. -/
theorem C9_witness :
    lookupWv sampleState.webviews 2 = none ∧
    handle_event_loop [] (.WindowEvent 2 (.Resized 640 480)) sampleState =
      Except.error "no entry found for key" :=
  ⟨rfl, C9_resized_missing_panics [] sampleState 2 640 480 rfl⟩

/-- C10: when the native position query of a live window fails, the loop
replies with the same FailedToSendMessage error the send-failure path
uses, and the caller-visible outcome of inner_position/outer_position is
then identical to the outcome of a failed channel send — the two
conditions are indistinguishable to the caller. -/
theorem C10_pos_error_conflation (listeners : List Nat) (s : LoopState)
    (id tx : Nat) (wv : WebView) (g : PosGetter)
    (hw : lookupWv s.webviews id = some wv)
    (hpos : posField g wv.window = none) :
    handle_event_loop listeners (.UserEvent (.Window id (posMessage g tx)))
        s =
      Except.ok
        ({ webviews := s.webviews, tasks := 0, controlFlow := .Wait },
         ⟨[(tx, Reply.posResult (Except.error Error.FailedToSendMessage))],
          [], s.tasks, flushLogs s.webviews⟩, s.webviews.length) ∧
    (∀ r : Option (Except Error (Int × Int)),
      position_call false r =
        CallerView.failure Error.FailedToSendMessage) ∧
    position_call true (some (Except.error Error.FailedToSendMessage)) =
      CallerView.failure Error.FailedToSendMessage := by
  refine ⟨?_, fun _ => rfl, rfl⟩
  cases g <;> simp [posField] at hpos <;>
    simp [handle_event_loop, hw, posMessage, getterReply, posReply, hpos,
      WindowMessage.getterChannel]

/-- C10 witness: inner position on the sample window (no native
position). -/
theorem C10_witness :
    lookupWv sampleState.webviews 1 = some sampleWebView ∧
    posField PosGetter.inner sampleWebView.window = none ∧
    handle_event_loop [] (.UserEvent (.Window 1 (posMessage PosGetter.inner 7)))
        sampleState =
      Except.ok
        ({ webviews := sampleState.webviews, tasks := 0,
           controlFlow := .Wait },
         ⟨[(7, Reply.posResult (Except.error Error.FailedToSendMessage))],
          [], sampleState.tasks, flushLogs sampleState.webviews⟩,
         sampleState.webviews.length) :=
  ⟨rfl, rfl,
    (C10_pos_error_conflation [] sampleState 1 7 sampleWebView
      PosGetter.inner rfl rfl).1⟩

end TauriWry

namespace TauriWry

lemma listenerRuns_of_ok (listeners : List Nat) (wid : Nat)
    (wevent : WryWindowEvent) (s s' : LoopState) (eff : LoopEffects)
    (n : Nat)
    (h : handle_event_loop listeners (.WindowEvent wid wevent) s =
      Except.ok (s', eff, n)) :
    eff.listenerRuns =
      match windowEventWrapper wevent with
      | some pub => listeners.map fun l => (l, pub)
      | none => [] := by
  cases wevent with
  | Resized a b =>
    cases hl : lookupWv s.webviews wid with
    | none => simp [handle_event_loop, hl] at h
    | some wv =>
      simp [handle_event_loop, hl] at h
      obtain ⟨h1, h2, h3⟩ := h
      subst h2; rfl
  | Moved x y =>
    simp [handle_event_loop] at h
    obtain ⟨h1, h2, h3⟩ := h
    subst h2; rfl
  | CloseRequested =>
    simp [handle_event_loop] at h
    obtain ⟨h1, h2, h3⟩ := h
    subst h2; rfl
  | Destroyed =>
    simp [handle_event_loop] at h
    obtain ⟨h1, h2, h3⟩ := h
    subst h2; rfl
  | Focused f =>
    simp [handle_event_loop] at h
    obtain ⟨h1, h2, h3⟩ := h
    subst h2; rfl
  | ScaleFactorChanged sf a b =>
    simp [handle_event_loop] at h
    obtain ⟨h1, h2, h3⟩ := h
    subst h2; rfl
  | Other t =>
    simp [handle_event_loop] at h
    obtain ⟨h1, h2, h3⟩ := h
    subst h2; rfl

lemma count_map_pair (pub : WindowEvent) (listeners : List Nat)
    (hnd : listeners.Nodup) (l : Nat) (hl : l ∈ listeners) :
    List.count (l, pub) (listeners.map fun x => (x, pub)) = 1 := by
  induction listeners with
  | nil => cases hl
  | cons a t ih =>
    rcases List.mem_cons.mp hl with rfl | hmem
    · have hnot : l ∉ t := (List.nodup_cons.mp hnd).1
      have hz : (l, pub) ∉ t.map fun x => (x, pub) := by
        intro hx
        rcases List.mem_map.mp hx with ⟨x, hxt, hxx⟩
        cases hxx
        exact hnot hxt
      simp [List.count_cons, List.count_eq_zero.mpr hz]
    · have ht := ih (List.nodup_cons.mp hnd).2 hmem
      have hne : l ≠ a := by
        rintro rfl
        exact (List.nodup_cons.mp hnd).1 hmem
      simp [List.count_cons, ht, hne]

/-- C6: whenever the handler completes on a native window event, the
event is translated iff it is one of the six known variants; a
translated event is delivered to exactly the registered listeners, one
invocation each, independently of any window id (the registry carries no
per-window filter); untranslated variants invoke no listener. -/
theorem C6_fanout (listeners : List Nat) (wid : Nat)
    (wevent : WryWindowEvent) (s s' : LoopState) (eff : LoopEffects)
    (n : Nat)
    (h : handle_event_loop listeners (.WindowEvent wid wevent) s =
      Except.ok (s', eff, n)) :
    ((windowEventWrapper wevent).isSome = true ↔
      ((∃ a b, wevent = .Resized a b) ∨ (∃ x y, wevent = .Moved x y) ∨
        wevent = .CloseRequested ∨ wevent = .Destroyed ∨
        (∃ f, wevent = .Focused f) ∨
        (∃ sf a b, wevent = .ScaleFactorChanged sf a b))) ∧
    (∀ pub, windowEventWrapper wevent = some pub →
      eff.listenerRuns = listeners.map fun l => (l, pub)) ∧
    (windowEventWrapper wevent = none → eff.listenerRuns = []) ∧
    (∀ pub, windowEventWrapper wevent = some pub → listeners.Nodup →
      ∀ l ∈ listeners, eff.listenerRuns.count (l, pub) = 1) := by
  have hruns := listenerRuns_of_ok listeners wid wevent s s' eff n h
  refine ⟨?_, ?_, ?_, ?_⟩
  · cases wevent <;> simp [windowEventWrapper]
  · intro pub hpub
    rw [hruns]; simp [hpub]
  · intro hnone
    rw [hruns]; simp [hnone]
  · intro pub hpub hnd l hl
    rw [hruns]; simp only [hpub]
    exact count_map_pair pub listeners hnd l hl

/-- C6 witness: two listeners, one CloseRequested, each runs once. -/
theorem C6_witness :
    handle_event_loop [10, 20] (.WindowEvent 1 .CloseRequested)
        sampleState =
      Except.ok
        ({ webviews := [], tasks := 0, controlFlow := .Exit },
         ⟨[], [(10, WindowEvent.CloseRequested),
               (20, WindowEvent.CloseRequested)], 0, []⟩, 0) ∧
    List.count (10, WindowEvent.CloseRequested)
        [(10, WindowEvent.CloseRequested),
         (20, WindowEvent.CloseRequested)] = 1 ∧
    List.count (20, WindowEvent.CloseRequested)
        [(10, WindowEvent.CloseRequested),
         (20, WindowEvent.CloseRequested)] = 1 := by
  refine ⟨rfl, ?_, ?_⟩
  · exact (C6_fanout [10, 20] 1 .CloseRequested sampleState _ _ _
      rfl).2.2.2 .CloseRequested rfl (by decide) 10 (by decide)
  · exact (C6_fanout [10, 20] 1 .CloseRequested sampleState _ _ _
      rfl).2.2.2 .CloseRequested rfl (by decide) 20 (by decide)

end TauriWry

namespace TauriWry

/-- C3: on every completed handler invocation, the resulting control flow
is Exit precisely when the event was a native CloseRequested whose
removal leaves the table empty, or a Window Close command for a live id
whose removal leaves the table empty; every other event or command
leaves the control flow at Wait. -/
theorem C3_exit_iff (listeners : List Nat) (event : Event)
    (s s' : LoopState) (eff : LoopEffects) (n : Nat)
    (h : handle_event_loop listeners event s = Except.ok (s', eff, n)) :
    s'.controlFlow = ControlFlow.Exit ↔
      ((∃ id, event = Event.WindowEvent id WryWindowEvent.CloseRequested ∧
          removeWv s.webviews id = []) ∨
        (∃ id,
          event = Event.UserEvent (Message.Window id WindowMessage.Close) ∧
          (lookupWv s.webviews id).isSome = true ∧
          removeWv s.webviews id = [])) := by
  cases event with
  | WindowEvent wid wevent =>
    cases wevent with
    | CloseRequested =>
      simp [handle_event_loop] at h
      obtain ⟨h1, h2, h3⟩ := h
      subst h1
      by_cases hc : removeWv s.webviews wid = [] <;> simp [hc]
    | Resized a b =>
      cases hl : lookupWv s.webviews wid with
      | none => simp [handle_event_loop, hl] at h
      | some wv =>
        simp [handle_event_loop, hl] at h
        obtain ⟨h1, h2, h3⟩ := h
        subst h1
        simp
    | Moved x y =>
      simp [handle_event_loop] at h
      obtain ⟨h1, h2, h3⟩ := h
      subst h1; simp
    | Destroyed =>
      simp [handle_event_loop] at h
      obtain ⟨h1, h2, h3⟩ := h
      subst h1; simp
    | Focused f =>
      simp [handle_event_loop] at h
      obtain ⟨h1, h2, h3⟩ := h
      subst h1; simp
    | ScaleFactorChanged sf a b =>
      simp [handle_event_loop] at h
      obtain ⟨h1, h2, h3⟩ := h
      subst h1; simp
    | Other t =>
      simp [handle_event_loop] at h
      obtain ⟨h1, h2, h3⟩ := h
      subst h1; simp
  | UserEvent msg =>
    cases msg with
    | Window id wmsg =>
      cases hl : lookupWv s.webviews id with
      | none =>
        simp [handle_event_loop, hl] at h
        obtain ⟨h1, h2, h3⟩ := h
        subst h1
        simp [hl]
      | some wv =>
        cases wmsg <;>
          (simp [handle_event_loop, hl, getterReply,
             WindowMessage.getterChannel, applySetter] at h
           rw [← h.1]) <;>
          (by_cases hc : removeWv s.webviews id = [] <;> simp [hc, hl])
    | Webview id wvmsg =>
      cases hl : lookupWv s.webviews id with
      | none =>
        simp [handle_event_loop, hl] at h
        obtain ⟨h1, h2, h3⟩ := h
        subst h1; simp
      | some wv =>
        cases wvmsg <;>
          (simp [handle_event_loop, hl] at h
           rw [← h.1]) <;>
          simp
    | CreateWebview handler tx =>
      cases handler with
      | none => simp [handle_event_loop] at h
      | some result =>
        cases result <;>
          (simp [handle_event_loop] at h
           rw [← h.1]) <;>
          simp
  | MainEventsCleared =>
    simp [handle_event_loop] at h
    obtain ⟨h1, h2, h3⟩ := h
    subst h1; simp
  | OtherEvent t =>
    simp [handle_event_loop] at h
    obtain ⟨h1, h2, h3⟩ := h
    subst h1; simp

/-- C3 witness: CloseRequested on the single sample window empties the
table and exits. -/
theorem C3_witness :
    handle_event_loop [] (.WindowEvent 1 .CloseRequested) sampleState =
      Except.ok
        ({ webviews := [], tasks := 0, controlFlow := .Exit },
         ⟨[], [], 0, []⟩, 0) ∧
    (({ webviews := [], tasks := 0,
        controlFlow := .Exit } : LoopState).controlFlow =
        ControlFlow.Exit ↔
      ((∃ id,
          (Event.WindowEvent 1 WryWindowEvent.CloseRequested : Event) =
            Event.WindowEvent id WryWindowEvent.CloseRequested ∧
          removeWv sampleState.webviews id = []) ∨
        (∃ id,
          (Event.WindowEvent 1 WryWindowEvent.CloseRequested : Event) =
            Event.UserEvent (Message.Window id WindowMessage.Close) ∧
          (lookupWv sampleState.webviews id).isSome = true ∧
          removeWv sampleState.webviews id = []))) :=
  ⟨rfl, C3_exit_iff [] (.WindowEvent 1 .CloseRequested) sampleState _ _ _ rfl⟩

end TauriWry

namespace TauriWry

/-- C4 counterexample: a raw png icon (valid image data whose failure to
decode should, per the claim, surface as a typed error) makes
WryIcon::try_from panic on the unsupported-extension arm instead. -/
theorem C4_counterexample :
    wry_icon_try_from sampleIconNative
        (Icon.Raw [137, 80, 78, 71, 13, 10, 26, 10]) =
      BuildStep.panicked "image extension not supported" := by
  rfl

/-- C4 (amended): failures of WebViewBuilder::new and of the final
webview build are surfaced synchronously as typed CreateWebview errors
wrapping the native cause, and icon file-read and ico-parse failures as
typed InvalidIcon errors; but a native window build failure and an
unparsable URL panic through unwrap, and icon data whose type cannot be
inferred or whose inferred extension is not ico panics as well. -/
theorem C4_amended_thm (n : WebviewNative) (p : PendingWindow)
    (m : IconNative) :
    (∀ e, n.windowBuild = Except.error e →
      create_webview n p = BuildStep.panicked e) ∧
    (∀ w e, n.windowBuild = Except.ok w → n.webviewNew w = Except.error e →
      create_webview n p = BuildStep.err (Error.CreateWebview e)) ∧
    (∀ w, n.windowBuild = Except.ok w → n.webviewNew w = Except.ok () →
      n.urlParse p.url = false →
      create_webview n p = BuildStep.panicked "invalid url") ∧
    (∀ w e, n.windowBuild = Except.ok w → n.webviewNew w = Except.ok () →
      n.urlParse p.url = true → n.finalBuild = Except.error e →
      create_webview n p = BuildStep.err (Error.CreateWebview e)) ∧
    (∀ w wv, n.windowBuild = Except.ok w → n.webviewNew w = Except.ok () →
      n.urlParse p.url = true → n.finalBuild = Except.ok wv →
      create_webview n p = BuildStep.ok wv) ∧
    (∀ path e, m.fsRead path = Except.error e →
      wry_icon_try_from m (.File path) =
        BuildStep.err (Error.InvalidIcon e)) ∧
    (∀ bytes, m.inferGet bytes = none →
      iconFromBytes m bytes =
        BuildStep.panicked "could not determine icon extension") ∧
    (∀ bytes ext, m.inferGet bytes = some ext → ext ≠ "ico" →
      iconFromBytes m bytes =
        BuildStep.panicked "image extension not supported") ∧
    (∀ bytes e, m.inferGet bytes = some "ico" →
      m.icoRead bytes = Except.error e →
      iconFromBytes m bytes = BuildStep.err (Error.InvalidIcon e)) := by
  refine ⟨?_, ?_, ?_, ?_, ?_, ?_, ?_, ?_, ?_⟩
  · intro e he; simp [create_webview, he]
  · intro w e hw hn; simp [create_webview, hw, hn]
  · intro w hw hn hu; simp [create_webview, hw, hn, hu]
  · intro w e hw hn hu hf; simp [create_webview, hw, hn, hu, hf]
  · intro w wv hw hn hu hf; simp [create_webview, hw, hn, hu, hf]
  · intro path e hf; simp [wry_icon_try_from, hf]
  · intro bytes hi; simp [iconFromBytes, hi]
  · intro bytes ext hi hne; simp [iconFromBytes, hi, hne]
  · intro bytes e hi hr; simp [iconFromBytes, hi, hr]

/-- C4 witness: the sample native whose window build fails panics with
that failure. -/
theorem C4_witness :
    badWebviewNative.windowBuild = Except.error "window build failed" ∧
    create_webview badWebviewNative samplePending =
      BuildStep.panicked "window build failed" :=
  ⟨rfl,
    (C4_amended_thm badWebviewNative samplePending sampleIconNative).1
      "window build failed" rfl⟩

end TauriWry

namespace TauriUpdater

lemma try_urls_skipped (fetch : String → HttpOutcome) (cv target : String)
    (pre : List String)
    (hpre : ∀ p ∈ pre, urlSkipped fetch cv target p = true) :
    ∀ (le : Option UpdaterError) (rest : List String),
      ∃ le2, try_urls fetch cv target le (pre ++ rest) =
        try_urls fetch cv target le2 rest := by
  induction pre with
  | nil => intro le rest; exact ⟨le, rfl⟩
  | cons p t ih =>
    intro le rest
    have hp := hpre p (List.mem_cons_self _ _)
    have ht : ∀ q ∈ t, urlSkipped fetch cv target q = true :=
      fun q hq => hpre q (List.mem_cons_of_mem _ hq)
    cases hf : fetch (fixedLink p cv target) with
    | sendErr =>
      have hstep : try_urls fetch cv target le ((p :: t) ++ rest) =
          try_urls fetch cv target le (t ++ rest) := by
        simp [try_urls, hf]
      rw [hstep]
      exact ih ht le rest
    | readErr e => simp [urlSkipped, hf] at hp
    | response status data =>
      by_cases hs : isSuccessStatus status = true
      · by_cases h204 : status = 204
        · subst h204; simp [urlSkipped, hf, hs] at hp
        · cases hr : from_release data target with
          | ok rel => simp [urlSkipped, hf, hs, h204, hr] at hp
          | error e =>
            have hstep : try_urls fetch cv target le ((p :: t) ++ rest) =
                try_urls fetch cv target (some e) (t ++ rest) := by
              simp [try_urls, hf, hs, h204, hr]
            rw [hstep]
            exact ih ht (some e) rest
      · have hstep : try_urls fetch cv target le ((p :: t) ++ rest) =
            try_urls fetch cv target le (t ++ rest) := by
          simp [try_urls, hf, hs]
        rw [hstep]
        exact ih ht le rest

lemma try_urls_delivers (fetch : String → HttpOutcome) (cv target u : String)
    (r : RemoteRelease) (hu : urlDelivers fetch cv target u r = true)
    (le : Option UpdaterError) (rest : List String) :
    try_urls fetch cv target le (u :: rest) = Except.ok (none, some r) := by
  cases hf : fetch (fixedLink u cv target) with
  | sendErr => simp [urlDelivers, hf] at hu
  | readErr e => simp [urlDelivers, hf] at hu
  | response status data =>
    by_cases hs : isSuccessStatus status = true
    · by_cases h204 : status = 204
      · subst h204; simp [urlDelivers, hf, hs] at hu
      · cases hr : from_release data target with
        | ok rel =>
          have hrel : rel = r := by
            simpa [urlDelivers, hf, hs, h204, hr] using hu
          subst hrel
          simp [try_urls, hf, hs, h204, hr]
        | error e => simp [urlDelivers, hf, hs, h204, hr] at hu
    · simp [urlDelivers, hf, hs] at hu

/-- C7 counterexample: the second URL alone yields a successful build,
but listing a URL whose response body fails to read before it makes
build fail immediately — an earlier failure does prevent later URLs from
being tried, refuting the claim as stated. -/
theorem C7_counterexample :
    build cexBuilderGoodOnly cexEnv =
      Except.ok
        { target := "linux", should_update := true, version := "2.0.0",
          date := "N/A", current_version := "1.0.0",
          download_url := "https://example.com/app.tar.gz", body := none,
          signature := none } ∧
    build cexBuilder cexEnv =
      Except.error (UpdaterError.Io "body read failed") := by
  constructor <;> rfl

/-- C7 (amended): build fails with a builder error on an empty URL list;
otherwise it walks the URLs in order, skipping past transport failures,
non-2xx statuses and unparsable 2xx manifests, and succeeds with the
release of the first URL that delivers a parsable 2xx manifest — but a
204 response aborts with UpToDate and a response body read failure
aborts with that error, so those two earlier outcomes do prevent later
URLs from being tried. -/
theorem C7_amended_thm :
    (∀ (b : UpdateBuilder) (env : BuildEnv), b.urls = [] →
      build b env =
        Except.error
          (.Builder "Unable to check update, url is required.")) ∧
    (∀ (b : UpdateBuilder) (env : BuildEnv) (pre rest : List String)
        (u exe target : String) (r : RemoteRelease),
      b.urls = pre ++ u :: rest →
      resolveExe b env = Except.ok exe →
      resolveTarget b env = Except.ok target →
      (∀ p ∈ pre, urlSkipped env.fetch b.current_version target p = true) →
      urlDelivers env.fetch b.current_version target u r = true →
      build b env =
        Except.ok
          { target := target
            should_update :=
              (env.isGreater b.current_version r.version).getD false
            version := r.version
            date := r.date
            current_version := b.current_version
            download_url := r.download_url
            body := r.body
            signature := r.signature }) := by
  constructor
  · intro b env h
    simp [build, h]
  · intro b env pre rest u exe target r hurls hexe htgt hpre hu
    obtain ⟨le2, hstep⟩ :=
      try_urls_skipped env.fetch b.current_version target pre hpre none
        (u :: rest)
    have hall := hstep.trans
      (try_urls_delivers env.fetch b.current_version target u r hu le2 rest)
    simp [build, hurls, hexe, htgt, hall]

/-- C7 witness: a single delivering URL builds the sample release. -/
theorem C7_witness :
    build witnessBuilder witnessEnv =
      Except.ok
        { target := "linux", should_update := true, version := "2.0.0",
          date := "N/A", current_version := "1.0.0",
          download_url := "https://example.com/app.tar.gz", body := none,
          signature := none } := by
  have h := C7_amended_thm.2 witnessBuilder witnessEnv [] []
    "https://updates.example.com/u" "/usr/bin/app" "linux" sampleRelease
    rfl rfl rfl (by intro p hp; cases hp) (by decide)
  exact h

end TauriUpdater

namespace TauriUpdater

lemma preInstallOk_parts (env : InstallEnv)
    (hpre : preInstallOk env = true) :
    (env.isLinux && !env.appimageSet) = false ∧
    (∃ v, env.tmpDir = Except.ok v) ∧
    (∃ v, env.fileCreate = Except.ok v) ∧
    (∃ status data, env.download = Except.ok (status, data) ∧
      isSuccessStatus status = true) ∧
    (∃ v, env.writeAll = Except.ok v) := by
  unfold preInstallOk at hpre
  repeat rw [Bool.and_eq_true] at hpre
  obtain ⟨⟨⟨⟨h1, h2⟩, h3⟩, h4⟩, h5⟩ := hpre
  have h1f : (env.isLinux && !env.appimageSet) = false := by
    cases hb : env.isLinux && !env.appimageSet with
    | false => rfl
    | true => rw [hb] at h1; simp at h1
  refine ⟨h1f, ?_, ?_, ?_, ?_⟩
  · cases htd : env.tmpDir with
    | ok v => exact ⟨v, rfl⟩
    | error e => rw [htd] at h2; simp at h2
  · cases hfc : env.fileCreate with
    | ok v => exact ⟨v, rfl⟩
    | error e => rw [hfc] at h3; simp at h3
  · cases hdl : env.download with
    | ok pr =>
      obtain ⟨st, da⟩ := pr
      rw [hdl] at h4
      exact ⟨st, da, rfl, h4⟩
    | error e => rw [hdl] at h4; simp at h4
  · cases hwr : env.writeAll with
    | ok v => exact ⟨v, rfl⟩
    | error e => rw [hwr] at h5; simp at h5

lemma download_reaches_sig (env : InstallEnv)
    (hpre : preInstallOk env = true) (u : Update) (po : Option String) :
    download_and_install env u po =
      (match sigCheckOf env u po with
       | .error e => (Except.error e, (⟨false, false⟩ : InstallEffects))
       | .ok _ => installTail env) := by
  obtain ⟨h1, ⟨v1, htd⟩, ⟨v2, hfc⟩, ⟨st, da, hdl, hs⟩, ⟨v3, hwr⟩⟩ :=
    preInstallOk_parts env hpre
  simp [download_and_install, h1, htd, hfc, hdl, hs, hwr]

/-- C8: with a public key supplied, the irreversible install steps run
only after a successful signature verification: extraction implies the
release announced a signature that verified; when every step before the
signature gate succeeds, a missing announced signature fails the call
with PubkeyButNoSignature and a failing verification fails it with that
error, in both cases with neither extraction nor application
replacement. -/
theorem C8_signature_gate (env : InstallEnv) (u : Update) (pk : String) :
    ((download_and_install env u (some pk)).2.extracted = true →
      ∃ s, u.signature = some s ∧
        ∃ b, verify_signature env.sig s pk = Except.ok b) ∧
    (preInstallOk env = true → u.signature = none →
      download_and_install env u (some pk) =
        (Except.error UpdaterError.PubkeyButNoSignature,
         ⟨false, false⟩)) ∧
    (∀ s e, preInstallOk env = true → u.signature = some s →
      verify_signature env.sig s pk = Except.error e →
      download_and_install env u (some pk) =
        (Except.error e, ⟨false, false⟩)) := by
  refine ⟨?_, ?_, ?_⟩
  · intro hx
    cases hlin : env.isLinux && !env.appimageSet with
    | true => simp [download_and_install, hlin] at hx
    | false =>
      cases htd : env.tmpDir with
      | error e => simp [download_and_install, hlin, htd] at hx
      | ok v1 =>
        cases hfc : env.fileCreate with
        | error e => simp [download_and_install, hlin, htd, hfc] at hx
        | ok v2 =>
          cases hdl : env.download with
          | error e =>
            simp [download_and_install, hlin, htd, hfc, hdl] at hx
          | ok pr =>
            obtain ⟨status, data⟩ := pr
            cases hs : isSuccessStatus status with
            | false =>
              simp [download_and_install, hlin, htd, hfc, hdl, hs] at hx
            | true =>
              cases hwr : env.writeAll with
              | error e =>
                simp [download_and_install, hlin, htd, hfc, hdl, hs,
                  hwr] at hx
              | ok v3 =>
                cases hsig : u.signature with
                | none =>
                  simp [download_and_install, hlin, htd, hfc, hdl, hs,
                    hwr, sigCheckOf, hsig] at hx
                | some s =>
                  cases hver : verify_signature env.sig s pk with
                  | error e =>
                    simp [download_and_install, hlin, htd, hfc, hdl, hs,
                      hwr, sigCheckOf, hsig, hver] at hx
                  | ok b => exact ⟨s, rfl, b, hver⟩
  · intro hpre hsig
    rw [download_reaches_sig env hpre u (some pk)]
    simp [sigCheckOf, hsig]
  · intro s e hpre hsig hver
    rw [download_reaches_sig env hpre u (some pk)]
    simp [sigCheckOf, hsig, hver]

/-- C8 witness: all pre-signature steps succeed and no signature is
announced, so the call fails with PubkeyButNoSignature and nothing was
extracted or installed. -/
theorem C8_witness :
    preInstallOk sampleInstallEnv = true ∧
    updateNoSig.signature = none ∧
    download_and_install sampleInstallEnv updateNoSig (some "cHVi") =
      (Except.error UpdaterError.PubkeyButNoSignature, ⟨false, false⟩) :=
  ⟨rfl, rfl,
    (C8_signature_gate sampleInstallEnv updateNoSig "cHVi").2.1 rfl rfl⟩

end TauriUpdater
